import Mathlib

/-!
Verification development for an A/B testing platform.

The development shallowly embeds the two core subsystems of the
repository:

* `src/splitting/splitting_service.py` — the conflict-aware bucket
  allocator (`SplittingService.add_experiment`), the MD5-based user
  hashing (`SplittingService._get_hash_id`) and the user-to-group
  assignment (`SplittingService.process_user`);
* `src/experiments/experiments_service.py` and
  `src/experiments/experiments_tools.py` — the statistical engine
  (`get_pvalue` dispatch, the stratified t-test, the bootstrap
  confidence intervals and pseudo p-value, `estimate_sample_size`,
  `get_mde`).

Machine reals (numpy/pandas floats) are embedded as rationals `ℚ`;
external transcendental routines (`scipy.stats.norm.ppf`,
`scipy.stats.norm.cdf`, `x ** 0.5`) are passed as explicit function
parameters, so that every definition stays executable.  Python
exceptions are embedded as `Except PyErr`.
-/

/-- Python exceptions raised by the embedded code paths.
`invalidConfiguration` stands for the `raise ValueError(...)` /
`raise 'Wrong bootstrap_ci_type'` branches on unknown configuration
values; `keyError` for a failed `dict[...]` lookup; `floatConversion`
for `OverflowError`/`ValueError` raised by `int(...)` on a non-finite
float; `zeroDivision` for integer division by zero. -/
inductive PyErr where
  | invalidConfiguration : PyErr
  | keyError : PyErr
  | floatConversion : PyErr
  | zeroDivision : PyErr
  | indexError : PyErr
deriving DecidableEq, Repr

deriving instance DecidableEq for Except

/-! ### MD5 (`hashlib.md5`), embedded over `ℕ`

`SplittingService._get_hash_id` computes
`int(hashlib.md5((user_id + salt).encode()).hexdigest(), 16) % n_buckets`.
We embed the full MD5 algorithm on byte lists (bytes are `ℕ < 256`,
32-bit words are `ℕ` reduced `% 2 ^ 32`). -/

/-- The 64 MD5 round constants `K[i] = floor(2^32 * |sin(i + 1)|)`. -/
def md5K : List ℕ :=
  [3614090360, 3905402710, 606105819, 3250441966, 4118548399, 1200080426,
   2821735955, 4249261313, 1770035416, 2336552879, 4294925233, 2304563134,
   1804603682, 4254626195, 2792965006, 1236535329, 4129170786, 3225465664,
   643717713, 3921069994, 3593408605, 38016083, 3634488961, 3889429448,
   568446438, 3275163606, 4107603335, 1163531501, 2850285829, 4243563512,
   1735328473, 2368359562, 4294588738, 2272392833, 1839030562, 4259657740,
   2763975236, 1272893353, 4139469664, 3200236656, 681279174, 3936430074,
   3572445317, 76029189, 3654602809, 3873151461, 530742520, 3299628645,
   4096336452, 1126891415, 2878612391, 4237533241, 1700485571, 2399980690,
   4293915773, 2240044497, 1873313359, 4264355552, 2734768916, 1309151649,
   4149444226, 3174756917, 718787259, 3951481745]

/-- The 64 MD5 per-round left-rotation amounts. -/
def md5S : List ℕ :=
  [7, 12, 17, 22, 7, 12, 17, 22, 7, 12, 17, 22, 7, 12, 17, 22,
   5, 9, 14, 20, 5, 9, 14, 20, 5, 9, 14, 20, 5, 9, 14, 20,
   4, 11, 16, 23, 4, 11, 16, 23, 4, 11, 16, 23, 4, 11, 16, 23,
   6, 10, 15, 21, 6, 10, 15, 21, 6, 10, 15, 21, 6, 10, 15, 21]

/-- 32-bit left rotation on a word `x < 2 ^ 32`. -/
def rotl32 (x s : ℕ) : ℕ :=
  ((x <<< s) ||| (x >>> (32 - s))) % 2 ^ 32

/-- Bitwise complement within 32 bits. -/
def not32 (x : ℕ) : ℕ := x ^^^ (2 ^ 32 - 1)

/-- `k` bytes of `x`, little-endian. -/
def leBytes : ℕ → ℕ → List ℕ
  | 0, _ => []
  | k + 1, x => x % 256 :: leBytes k (x / 256)

/-- Decode a list of bytes as a little-endian number (used to read the
16 message words of each 64-byte block). -/
def leNum : List ℕ → ℕ
  | [] => 0
  | b :: bs => b + 256 * leNum bs

/-- The 16 little-endian 32-bit words of a 64-byte block. -/
def md5Words (block : List ℕ) : List ℕ :=
  (List.range 16).map fun i => leNum ((block.drop (4 * i)).take 4)

/-- One of the 64 MD5 rounds: `i` is the round index, `m` the 16
message words, `(a, b, c, d)` the running state. -/
def md5Round (m : List ℕ) (st : ℕ × ℕ × ℕ × ℕ) (i : ℕ) : ℕ × ℕ × ℕ × ℕ :=
  let (a, b, c, d) := st
  let f :=
    if i < 16 then (b &&& c) ||| (not32 b &&& d)
    else if i < 32 then (d &&& b) ||| (not32 d &&& c)
    else if i < 48 then b ^^^ c ^^^ d
    else c ^^^ (b ||| not32 d)
  let g :=
    if i < 16 then i
    else if i < 32 then (5 * i + 1) % 16
    else if i < 48 then (3 * i + 5) % 16
    else (7 * i) % 16
  let f' := (f + a + md5K.getD i 0 + m.getD g 0) % 2 ^ 32
  (d, (b + rotl32 f' (md5S.getD i 0)) % 2 ^ 32, b, c)

/-- Process one 64-byte block, updating the four chaining words. -/
def md5Block (st : ℕ × ℕ × ℕ × ℕ) (block : List ℕ) : ℕ × ℕ × ℕ × ℕ :=
  let (a0, b0, c0, d0) := st
  let (a, b, c, d) := (List.range 64).foldl (md5Round (md5Words block)) st
  ((a0 + a) % 2 ^ 32, (b0 + b) % 2 ^ 32, (c0 + c) % 2 ^ 32, (d0 + d) % 2 ^ 32)

/-- Process the padded message 64 bytes at a time.  The first argument
is recursion fuel: every call site passes the padded length, which is
at least the number of 64-byte blocks, so the whole message is
consumed. -/
def md5Blocks : ℕ → (ℕ × ℕ × ℕ × ℕ) → List ℕ → ℕ × ℕ × ℕ × ℕ
  | 0, st, _ => st
  | _, st, [] => st
  | fuel + 1, st, b :: rest =>
      md5Blocks fuel (md5Block st ((b :: rest).take 64)) ((b :: rest).drop 64)

/-- MD5 padding: append `0x80`, zero bytes up to 56 mod 64, then the
original bit length as eight little-endian bytes. -/
def md5Pad (msg : List ℕ) : List ℕ :=
  let zeros := (120 - (msg.length + 1) % 64) % 64
  msg ++ [128] ++ List.replicate zeros 0 ++ leBytes 8 ((msg.length * 8) % 2 ^ 64)

/-- The 16 digest bytes of MD5: the four chaining words serialized
little-endian. -/
def md5Digest (msg : List ℕ) : List ℕ :=
  let padded := md5Pad msg
  let (a, b, c, d) :=
    md5Blocks padded.length (1732584193, 4023233417, 2562383102, 271733878) padded
  leBytes 4 a ++ leBytes 4 b ++ leBytes 4 c ++ leBytes 4 d

/-- `int(hexdigest, 16)`: parsing the hex string of the digest as an
integer reads the digest bytes in big-endian base-256. -/
def md5Nat (msg : List ℕ) : ℕ :=
  (md5Digest msg).foldl (fun acc b => acc * 256 + b) 0

/-- UTF-8 encoding of one character (Python `str.encode()`). -/
def utf8Char (c : Char) : List ℕ :=
  let n := c.toNat
  if n < 128 then [n]
  else if n < 2048 then [192 + n / 64, 128 + n % 64]
  else if n < 65536 then [224 + n / 4096, 128 + n / 64 % 64, 128 + n % 64]
  else [240 + n / 262144, 128 + n / 4096 % 64, 128 + n / 64 % 64, 128 + n % 64]

/-- UTF-8 bytes of a string (Python `str.encode()`). -/
def utf8Bytes (s : String) : List ℕ :=
  s.data.flatMap utf8Char

/-! ### `src/splitting/splitting_service.py` -/

/-- `Experiment` (pydantic model): experiment id, per-experiment salt,
requested number of buckets, and ids of experiments that must not run
on the same users.  Python `int` is embedded as `ℤ`. -/
structure Experiment where
  id_exp : ℤ
  salt : String := ""
  buckets_count : ℤ := 0
  conflicts : List ℤ := []
deriving DecidableEq, Repr

/-- `SplittingService` state: number of buckets, global bucket salt,
bucket table (each bucket lists the ids of experiments hosted in it,
in insertion order), and the id-to-experiment dictionary (embedded as
an association list; `dict` lookup is first-match). -/
structure SplittingService where
  buckets_count : ℕ
  bucket_salt : String
  buckets : List (List ℤ)
  id2experiment : List (ℤ × Experiment)
deriving DecidableEq, Repr

/-- `SplittingService.__init__`: an empty (or omitted) `buckets` /
`id2experiment` argument is falsy in Python, so the constructor then
builds `buckets_count` fresh empty buckets / an empty dictionary. -/
def SplittingService.create (buckets_count : ℕ) (bucket_salt : String)
    (buckets : List (List ℤ)) (id2experiment : List (ℤ × Experiment)) :
    SplittingService :=
  { buckets_count := buckets_count
    bucket_salt := bucket_salt
    buckets := if buckets.isEmpty then List.replicate buckets_count [] else buckets
    id2experiment := id2experiment }

/-- `set(conflicts) & set(bucket)` is nonempty. -/
def conflictsWith (conflicts bucket : List ℤ) : Bool :=
  conflicts.any fun c => bucket.contains c

/-- The `correct_buckets` list of `add_experiment`: pairs
`(bucket index, bucket load)` of the buckets hosting no experiment
from `conflicts`, in bucket-index order. -/
def correctBuckets (buckets : List (List ℤ)) (conflicts : List ℤ) : List (ℕ × ℕ) :=
  (buckets.enum.filter fun ib => ¬ conflictsWith conflicts ib.2).map
    fun ib => (ib.1, ib.2.length)

/-- Insert `x` into `l` after every element `y` with `r y x = true`
(used below to build a stable sort). -/
def insertBy (r : α → α → Bool) (x : α) : List α → List α
  | [] => [x]
  | y :: ys => if r y x then y :: insertBy r x ys else x :: y :: ys

/-- Stable insertion sort: elements are inserted in original order and
each lands after all earlier elements it compares equal to, so ties
keep their original relative order — the behaviour of Python's stable
`sorted`. -/
def stableSortBy (r : α → α → Bool) (l : List α) : List α :=
  l.foldl (fun acc x => insertBy r x acc) []

/-- `sorted(correct_buckets, key=lambda x: x[1], reverse=True)`:
stable sort by bucket load, most heavily loaded first, ties in
bucket-index order. -/
def sortCorrectBuckets (correct : List (ℕ × ℕ)) : List (ℕ × ℕ) :=
  stableSortBy (fun a b => a.2 ≥ b.2) correct

/-- `SplittingService.add_experiment`: reject (state unchanged) when
fewer eligible buckets exist than `experiment.buckets_count`;
otherwise append the experiment id to the `buckets_count` most loaded
eligible buckets.  The sequential `append` loop of the source is
embedded as one pass over the bucket table (the chosen indices are
pairwise distinct, so the appends are independent). -/
def addExperiment (s : SplittingService) (e : Experiment) : Bool × SplittingService :=
  let correct := correctBuckets s.buckets e.conflicts
  if (correct.length : ℤ) < e.buckets_count then (false, s)
  else
    let chosen := ((sortCorrectBuckets correct).take e.buckets_count.toNat).map Prod.fst
    let newBuckets :=
      s.buckets.mapIdx fun i b => if chosen.contains i then b ++ [e.id_exp] else b
    (true, { s with buckets := newBuckets })

/-- `SplittingService._get_hash_id`:
`int(md5((user_id + salt).encode()).hexdigest(), 16) % n_buckets`. -/
def getHashId (user_id salt : String) (n_buckets : ℕ) : ℕ :=
  md5Nat (utf8Bytes (user_id ++ salt)) % n_buckets

/-- One iteration of the `process_user` loop body: look the hosted
experiment id up in `id2experiment` (a missing id raises `KeyError`,
which aborts the rest of the loop) and hash the user with the
experiment's salt into group `"A"` or `"B"`. -/
def processStep (m : List (ℤ × Experiment)) (user_id : String)
    (acc : Except PyErr (List (ℤ × String))) (id_exp : ℤ) :
    Except PyErr (List (ℤ × String)) :=
  acc.bind fun groups =>
    match m.lookup id_exp with
    | none => Except.error PyErr.keyError
    | some e =>
        Except.ok (groups ++
          [(id_exp, if getHashId user_id e.salt 2 = 0 then "A" else "B")])

/-- `SplittingService.process_user`: hash the user to a bucket, then
run `processStep` over the experiment ids hosted there. -/
def processUser (s : SplittingService) (user_id : String) :
    Except PyErr (ℕ × List (ℤ × String)) :=
  let bucket_id := getHashId user_id s.bucket_salt s.buckets_count
  match s.buckets.get? bucket_id with
  | none => .error .indexError
  | some bucket =>
      (bucket.foldl (processStep s.id2experiment user_id) (Except.ok [])).map
        fun groups => (bucket_id, groups)

/-- Fold a list of experiments through `add_experiment`, recording the
acceptance of each call and the final state. -/
def runAdds (s : SplittingService) (es : List Experiment) :
    List Bool × SplittingService :=
  es.foldl
    (fun acc e =>
      let r := addExperiment acc.2 e
      (acc.1 ++ [r.1], r.2))
    ([], s)

/-! ### `src/experiments/experiments_service.py`

numpy/pandas floats are embedded as `ℚ`.  `scipy.stats.norm.ppf`,
`scipy.stats.norm.cdf` and `x ** 0.5`, which are opaque library
routines producing irrational values, are passed as function
parameters `ppf`, `cdf`, `sqrtQ`; the statements below hold for every
choice of these parameters (or, where a concrete number matters, under
explicit rational bounds on them). -/

/-- The `Design` pydantic model with its field defaults. -/
structure Design where
  statistical_test : String := "ttest"
  effect : ℚ := 5
  alpha : ℚ := 1 / 20
  beta : ℚ := 1 / 10
  sample_size : ℤ := 1000
  bootstrap_iter : ℤ := 1000
  bootstrap_ci_type : String := "normal"
  bootstrap_agg_func : String := "mean"
  stratification : String := "off"
deriving DecidableEq, Repr

/-- Mean of a list of numbers (`np.mean` / `pd.Series.mean`). -/
def listMean (l : List ℚ) : ℚ := l.sum / l.length

/-- Population variance, `ddof = 0` (`np.std(...) ** 2`,
`pd.Series.var(ddof=0)`). -/
def listVarP (l : List ℚ) : ℚ :=
  ((l.map fun x => (x - listMean l) ^ 2).sum) / l.length

/-- Sample variance, `ddof = 1` (`pd.Series.var()`, as used by
`groupby('strat')['metric'].var()`).  pandas yields `NaN` for a group
with fewer than two observations, embedded as `none`. -/
def listVarS (l : List ℚ) : Option ℚ :=
  if l.length < 2 then none
  else some (((l.map fun x => (x - listMean l) ^ 2).sum) / (l.length - 1))

/-- `np.quantile(xs, q)` with the default linear interpolation: with
`s` the ascending sort of `xs` and `h = q * (len - 1)`, the result is
`s[⌊h⌋] + (h - ⌊h⌋) * (s[⌊h⌋ + 1] - s[⌊h⌋])` (upper index clipped to
the last element).  The source never calls it on an empty array in the
theorems below; the `getD` default is irrelevant there. -/
def npQuantile (xs : List ℚ) (q : ℚ) : ℚ :=
  let s := stableSortBy (fun a b => a ≤ b) xs
  let h : ℚ := q * (s.length - 1)
  let i : ℕ := (⌊h⌋).toNat
  let lo := s.getD i 0
  let hi := s.getD (min (i + 1) (s.length - 1)) 0
  lo + (h - ⌊h⌋) * (hi - lo)

/-- `ExperimentsService.get_ci_bootstrap_normal`:
`pe ± norm.ppf(1 - alpha/2) * np.std(boot)`. -/
def getCiBootstrapNormal (ppf sqrtQ : ℚ → ℚ) (boot : List ℚ) (pe alpha : ℚ) :
    ℚ × ℚ :=
  let c := ppf (1 - alpha / 2)
  let se := sqrtQ (listVarP boot)
  (pe - c * se, pe + c * se)

/-- `ExperimentsService.get_ci_bootstrap_percentile`:
`np.quantile(boot, [alpha/2, 1 - alpha/2])`. -/
def getCiBootstrapPercentile (boot : List ℚ) (alpha : ℚ) : ℚ × ℚ :=
  (npQuantile boot (alpha / 2), npQuantile boot (1 - alpha / 2))

/-- `ExperimentsService.get_ci_bootstrap_pivotal`:
`right, left = 2 * pe - np.quantile(boot, [alpha/2, 1 - alpha/2])`. -/
def getCiBootstrapPivotal (boot : List ℚ) (pe alpha : ℚ) : ℚ × ℚ :=
  (2 * pe - npQuantile boot (1 - alpha / 2), 2 * pe - npQuantile boot (alpha / 2))

/-- `ExperimentsService._run_bootstrap`: dispatch on
`design.bootstrap_ci_type` (an unknown value raises — embedded as
`invalidConfiguration`), then `pvalue = float(left < 0 < right)`. -/
def runBootstrap (ppf sqrtQ : ℚ → ℚ) (boot : List ℚ) (pe : ℚ) (d : Design) :
    Except PyErr ((ℚ × ℚ) × ℚ) :=
  let decide_ci : ℚ × ℚ → (ℚ × ℚ) × ℚ := fun ci =>
    (ci, if ci.1 < 0 ∧ 0 < ci.2 then 1 else 0)
  if d.bootstrap_ci_type = "normal" then
    .ok (decide_ci (getCiBootstrapNormal ppf sqrtQ boot pe d.alpha))
  else if d.bootstrap_ci_type = "percentile" then
    .ok (decide_ci (getCiBootstrapPercentile boot d.alpha))
  else if d.bootstrap_ci_type = "pivotal" then
    .ok (decide_ci (getCiBootstrapPivotal boot pe d.alpha))
  else .error .invalidConfiguration

/-- The distinct stratum labels of a two-column sample, in first
occurrence order (the order is irrelevant: the series built from them
are only read through index lookup). -/
def strataOf (df : List (ℚ × ℚ)) : List ℚ := (df.map Prod.snd).dedup

/-- The metric values of one stratum. -/
def stratMetrics (df : List (ℚ × ℚ)) (s : ℚ) : List ℚ :=
  (df.filter fun p => p.2 = s).map Prod.fst

/-- `(series * weights).sum()` for two pandas Series: multiplication
aligns on the index (a label present on one side only yields `NaN`),
and `.sum()` skips `NaN` — so exactly the labels present on both
sides, with a non-`NaN` value, contribute. -/
def seriesMulSum (xs : List (ℚ × Option ℚ)) (w : List (ℚ × ℚ)) : ℚ :=
  xs.foldl
    (fun acc p =>
      match p.2, w.lookup p.1 with
      | some v, some y => acc + v * y
      | _, _ => acc)
    0

/-- `df.groupby('strat')['metric'].mean()` as an index–value list. -/
def groupbyMean (df : List (ℚ × ℚ)) : List (ℚ × Option ℚ) :=
  (strataOf df).map fun s => (s, some (listMean (stratMetrics df s)))

/-- `df.groupby('strat')['metric'].var()` (ddof = 1, `NaN` on
singleton groups) as an index–value list. -/
def groupbyVar (df : List (ℚ × ℚ)) : List (ℚ × Option ℚ) :=
  (strataOf df).map fun s => (s, listVarS (stratMetrics df s))

/-- `ExperimentsService._calc_strat_mean`:
`(df.groupby('strat')['metric'].mean() * weights).sum()`. -/
def calcStratMean (df : List (ℚ × ℚ)) (weights : List (ℚ × ℚ)) : ℚ :=
  seriesMulSum (groupbyMean df) weights

/-- `ExperimentsService._calc_strat_var`:
`(df.groupby('strat')['metric'].var() * weights).sum()`. -/
def calcStratVar (df : List (ℚ × ℚ)) (weights : List (ℚ × ℚ)) : ℚ :=
  seriesMulSum (groupbyVar df) weights

/-- `pd.Series(pooled).value_counts(normalize=True)`: relative
frequency of each distinct value (pandas orders the index by
frequency; the order is irrelevant under index lookup). -/
def valueCounts (pooled : List ℚ) : List (ℚ × ℚ) :=
  pooled.dedup.map fun s => (s, (pooled.count s : ℚ) / pooled.length)

/-- `ExperimentsService._ttest_strat`: weights from the pooled strata
of both groups, stratified means/variances per group, then
`pvalue = 2 * (1 - norm.cdf(|delta / std|))` with
`std = (var_a / n_a + var_b / n_b) ** 0.5`.  The function body raises
nothing; `norm.cdf` and `** 0.5` are total on floats.  (In Lean
`x / 0 = 0` where numpy would produce `inf`/`nan`; the call still
returns a float either way, and the theorems below only evaluate the
value at inputs with a nonzero denominator or an abstract `sqrtQ`.) -/
def ttestStrat (sqrtQ cdf : ℚ → ℚ) (a b : List (ℚ × ℚ)) : ℚ :=
  let weights := valueCounts (a.map Prod.snd ++ b.map Prod.snd)
  let aMean := calcStratMean a weights
  let bMean := calcStratMean b weights
  let aVar := calcStratVar a weights
  let bVar := calcStratVar b weights
  let delta := bMean - aMean
  let std := sqrtQ (aVar / a.length + bVar / b.length)
  2 * (1 - cdf |delta / std|)

/-- `ExperimentsService.get_pvalue`: dispatch on
`design.statistical_test` and, for `ttest`, on
`design.stratification`; unknown values raise `ValueError`
(`invalidConfiguration`).  `stats.ttest_ind` and `stats.mannwhitneyu`
are opaque library routines passed as `tInd` / `uTest`; the bootstrap
branch's `_generate_bootstrap_metrics` draws random resamples, so its
output `(bootMetrics, peMetric)` is likewise passed in. -/
def getPvalue (tInd uTest : List (ℚ × ℚ) → List (ℚ × ℚ) → ℚ)
    (sqrtQ cdf ppf : ℚ → ℚ) (bootMetrics : List ℚ) (peMetric : ℚ)
    (a b : List (ℚ × ℚ)) (d : Design) : Except PyErr ℚ :=
  if d.statistical_test = "ttest" then
    if d.stratification = "off" then .ok (tInd a b)
    else if d.stratification = "on" then .ok (ttestStrat sqrtQ cdf a b)
    else .error .invalidConfiguration
  else if d.statistical_test = "utest" then .ok (uTest a b)
  else if d.statistical_test = "bootstrap" then
    (runBootstrap ppf sqrtQ bootMetrics peMetric d).map Prod.snd
  else .error .invalidConfiguration

/-- `ExperimentsService.estimate_sample_size` on a metrics table of
`(user_id, metric)` rows:
`ration = nunique(user_id) / len(metrics)`,
`z = (ppf(1 - alpha/2) + ppf(1 - beta)) ** 2`,
`sample_size = ration * z * 2 * var(ddof=0) / (mean * effect / 100) ** 2`,
returned as `int(np.ceil(...))`.  On an empty table the very first
line raises `ZeroDivisionError`; when `mean * effect = 0` the division
yields `inf`/`nan` and `int(...)` raises
(`OverflowError`/`ValueError`), embedded as `floatConversion`.  The
code performs no input validation of its own. -/
def estimateSampleSize (ppf : ℚ → ℚ) (metrics : List (String × ℚ)) (d : Design) :
    Except PyErr ℤ :=
  if metrics.length = 0 then .error .zeroDivision
  else
    let ration : ℚ := ((metrics.map Prod.fst).dedup.length : ℚ) / metrics.length
    let z := (ppf (1 - d.alpha / 2) + ppf (1 - d.beta)) ^ 2
    let values := metrics.map Prod.snd
    let mean := listMean values
    let var := listVarP values
    let eps := mean * (d.effect / 100)
    if eps ^ 2 = 0 then .error .floatConversion
    else .ok ⌈ration * z * 2 * var / eps ^ 2⌉

/-- A numpy scalar that may be non-finite: `estimate`/`mde` style
computations can produce `inf` or `nan` without raising. -/
inductive PyFloat where
  | fin : ℚ → PyFloat
  | inf : PyFloat
  | nan : PyFloat
deriving DecidableEq, Repr

/-- `experiments_tools.get_mde`:
`((ppf(1 - alp/2) + ppf(power)) ** 2 * 2 * sigma ** 2 / sample_size) ** 0.5`.
All operands are numpy float64 scalars, so `sample_size = 0` yields
`inf` (or `nan` when the numerator is zero) with a warning, a negative
`sample_size` makes the radicand negative and `** 0.5` yields `nan`
— no branch raises. -/
def getMde (sqrtQ ppf : ℚ → ℚ) (sigma : ℚ) (sample_size : ℤ) (alp power : ℚ) :
    PyFloat :=
  let z := (ppf (1 - alp / 2) + ppf power) ^ 2
  let total_sigma := 2 * sigma ^ 2
  let num := z * total_sigma
  if sample_size = 0 then (if num = 0 then .nan else .inf)
  else
    let radicand := num / sample_size
    if radicand < 0 then .nan else .fin (sqrtQ radicand)

/-- The state after a sequence of `add_experiment` calls (the second
component of `runAdds`). -/
def foldStates (s : SplittingService) (es : List Experiment) : SplittingService :=
  es.foldl (fun acc e => (addExperiment acc e).2) s
/-- Invariant: in every bucket, no entry is listed in the conflicts of
an experiment whose id appears later in the same bucket (bucket
entries are appended in addition order). -/
def NoLateConflicts (es : List Experiment) (bs : List (List ℤ)) : Prop :=
  ∀ b ∈ bs, ∀ (i j : ℕ) (x y : ℤ), i < j → b[i]? = some x → b[j]? = some y →
    ∀ e ∈ es, e.id_exp = y → x ∉ e.conflicts
/-! ### Concrete allocator fixtures -/

/-- The four experiments of the allocator scenario (the module test of
`splitting_service.py`). -/
def scenarioExperiments : List Experiment :=
  [{ id_exp := 1, buckets_count := 4, conflicts := [4] },
   { id_exp := 2, buckets_count := 2, conflicts := [3] },
   { id_exp := 3, buckets_count := 2, conflicts := [2] },
   { id_exp := 4, buckets_count := 1, conflicts := [1] }]

/-- An experiment declaring a one-directional conflict with id 2. -/
def expAsym1 : Experiment := { id_exp := 1, buckets_count := 1, conflicts := [2] }

/-- An experiment declaring no conflicts at all. -/
def expAsym2 : Experiment := { id_exp := 2, buckets_count := 1, conflicts := [] }

/-- An experiment whose id is not in any `id2experiment` map. -/
def expFresh : Experiment := { id_exp := 7, buckets_count := 1 }
/-- Modelled from the spec for comparison: `hash_bucket` computed over
the concatenation of the salt followed by the id string (the order the
spec describes). -/
def specHashBucketSaltFirst (id_string salt : String) (modulo : ℕ) : ℕ :=
  md5Nat (utf8Bytes (salt ++ id_string)) % modulo
/-! ### Concrete statistics fixtures -/

/-- A metrics table whose metric column is constant (variance 0). -/
def metricsConst : List (String × ℚ) := [("a", 5), ("b", 5)]

/-- Group A of the stratified counterexample: strata 0 and 1. -/
def stratA : List (ℚ × ℚ) := [(0, 0), (1, 0), (2, 1), (3, 1)]

/-- Group B of the stratified counterexample: stratum 0 is absent. -/
def stratB : List (ℚ × ℚ) := [(1, 1), (2, 1), (3, 1), (5, 1)]

/-- Design selecting the stratified t-test. -/
def designStratOn : Design := { statistical_test := "ttest", stratification := "on" }

/-- Design selecting the percentile bootstrap interval. -/
def designPercentile : Design :=
  { statistical_test := "bootstrap", bootstrap_ci_type := "percentile" }

/-- Design with an unknown statistical test name. -/
def designBadTest : Design := { statistical_test := "anova" }

/-- Design with an unknown stratification mode. -/
def designBadStrat : Design := { statistical_test := "ttest", stratification := "half" }

/-- Design with an unknown bootstrap interval type. -/
def designBadCi : Design :=
  { statistical_test := "bootstrap", bootstrap_ci_type := "basic" }
/-- Modelled from the spec's closed-form formula, for comparison with
the code:
`n = ceil(obs_per_user_ratio * (z_a + z_b)^2 * 2 * variance / (mean * effect_pct / 100)^2)`
with `obs_per_user_ratio = unique_users / total_observations` and the
normal quantiles supplied by `ppf`. -/
def specSampleSize (ppf : ℚ → ℚ) (metrics : List (String × ℚ)) (d : Design) : ℤ :=
  let values := metrics.map Prod.snd
  ⌈(((metrics.map Prod.fst).dedup.length : ℚ) / metrics.length) *
      (ppf (1 - d.alpha / 2) + ppf (1 - d.beta)) ^ 2 * 2 * listVarP values /
      (listMean values * d.effect / 100) ^ 2⌉

/-- The synthetic dataset of the source's test: 10 users with metric
values 0..9. -/
def metrics10 : List (String × ℚ) :=
  [("0", 0), ("1", 1), ("2", 2), ("3", 3), ("4", 4),
   ("5", 5), ("6", 6), ("7", 7), ("8", 8), ("9", 9)]

/-- The design of the sample-size test: alpha 0.05, beta 0.1,
effect 3 %. -/
def designC8 : Design :=
  { statistical_test := "ttest", alpha := 1 / 20, beta := 1 / 10, effect := 3 }

/-- A rational stand-in for `scipy.stats.norm.ppf` at the two
quantiles the sample-size test needs
(`z_0.975 ≈ 1.95996`, `z_0.9 ≈ 1.28155`). -/
def ppfC8 : ℚ → ℚ :=
  fun q => if q = 39 / 40 then 195996 / 100000 else 128155 / 100000

/-! ### Allocator lemmas -/

theorem mem_insertBy {r : α → α → Bool} {x a : α} {l : List α} :
    a ∈ insertBy r x l ↔ a = x ∨ a ∈ l := by
  induction l with
  | nil => simp [insertBy]
  | cons y ys ih =>
      by_cases h : r y x
      · simp only [insertBy, if_pos h, List.mem_cons, ih]
        tauto
      · simp only [insertBy, if_neg h, List.mem_cons]

theorem mem_stableSortBy {r : α → α → Bool} {a : α} {l : List α} :
    a ∈ stableSortBy r l ↔ a ∈ l := by
  suffices h : ∀ acc : List α,
      a ∈ l.foldl (fun acc x => insertBy r x acc) acc ↔ a ∈ acc ∨ a ∈ l by
    simpa [stableSortBy] using h []
  induction l with
  | nil => simp
  | cons y ys ih =>
      intro acc
      simp only [List.foldl_cons, ih, mem_insertBy, List.mem_cons]
      tauto

theorem mem_correctBuckets {buckets : List (List ℤ)} {conflicts : List ℤ}
    {p : ℕ × ℕ} (hp : p ∈ correctBuckets buckets conflicts) :
    ∃ b, buckets[p.1]? = some b ∧ conflictsWith conflicts b = false ∧
      p.2 = b.length := by
  simp only [correctBuckets, List.mem_map, List.mem_filter] at hp
  obtain ⟨ib, ⟨hmem, helig⟩, hib⟩ := hp
  refine ⟨ib.2, ?_, ?_, ?_⟩
  · rw [← hib]
    exact List.mem_enum_iff_getElem?.mp hmem
  · simpa using helig
  · rw [← hib]

/-- The bucket table after `add_experiment`: each bucket is either
untouched or, when chosen, extended by the new id — and a chosen
bucket was eligible (hosted no conflicting experiment). -/
theorem addExperiment_buckets_cases {s : SplittingService} {e : Experiment}
    {i : ℕ} {b' : List ℤ}
    (h : ((addExperiment s e).2).buckets[i]? = some b') :
    s.buckets[i]? = some b' ∨
    ∃ b, s.buckets[i]? = some b ∧ b' = b ++ [e.id_exp] ∧
      conflictsWith e.conflicts b = false := by
  unfold addExperiment at h
  by_cases hrej :
      ((correctBuckets s.buckets e.conflicts).length : ℤ) < e.buckets_count
  · left
    simpa [hrej] using h
  · simp only [hrej, if_false] at h
    rw [List.getElem?_mapIdx] at h
    cases hb : s.buckets[i]? with
    | none => simp [hb] at h
    | some b =>
        simp only [hb, Option.map_some', Option.some.injEq] at h
        set chosen :=
          ((sortCorrectBuckets
            (correctBuckets s.buckets e.conflicts)).take e.buckets_count.toNat).map
            Prod.fst with hchosen
        by_cases hc : chosen.contains i
        · rw [if_pos hc] at h
          right
          refine ⟨b, rfl, h.symm, ?_⟩
          have hi : i ∈ chosen := by
            simpa [List.elem_iff] using hc
          rw [hchosen] at hi
          obtain ⟨q, hq, hqi⟩ := List.mem_map.mp hi
          have hq' : q ∈ sortCorrectBuckets (correctBuckets s.buckets e.conflicts) :=
            List.mem_of_mem_take hq
          have hq'' : q ∈ correctBuckets s.buckets e.conflicts := by
            simpa [sortCorrectBuckets, mem_stableSortBy] using hq'
          obtain ⟨b0, hb0, helig, _⟩ := mem_correctBuckets hq''
          rw [hqi, hb] at hb0
          cases hb0
          exact helig
        · rw [if_neg hc] at h
          left
          rw [h]

/-- `add_experiment` never touches the id-to-experiment map. -/
theorem addExperiment_id2experiment (s : SplittingService) (e : Experiment) :
    ((addExperiment s e).2).id2experiment = s.id2experiment := by
  unfold addExperiment
  by_cases hrej :
      ((correctBuckets s.buckets e.conflicts).length : ℤ) < e.buckets_count
  · simp [hrej]
  · simp [hrej]

theorem runAdds_snd (s : SplittingService) (es : List Experiment) :
    (runAdds s es).2 = foldStates s es := by
  suffices h : ∀ (bs : List Bool) (s : SplittingService),
      (es.foldl
        (fun acc e =>
          let r := addExperiment acc.2 e
          (acc.1 ++ [r.1], r.2))
        (bs, s)).2 = foldStates s es from h [] s
  induction es with
  | nil => intro bs s; rfl
  | cons e tl ih => intro bs s; exact ih _ _

theorem addExperiment_preserves_noLateConflicts {es : List Experiment}
    (hnd : (es.map Experiment.id_exp).Nodup) {s : SplittingService}
    {e : Experiment} (he : e ∈ es) (hinv : NoLateConflicts es s.buckets) :
    NoLateConflicts es ((addExperiment s e).2).buckets := by
  unfold NoLateConflicts at hinv ⊢
  intro b' hb' i j x y hij hx hy e' he' hid
  obtain ⟨k, hk⟩ := List.mem_iff_getElem?.mp hb'
  rcases addExperiment_buckets_cases hk with hold | ⟨b, hb, rfl, helig⟩
  · exact hinv b' (List.getElem?_mem hold) i j x y hij hx hy e' he' hid
  · by_cases hj : j < b.length
    · have hi : i < b.length := Nat.lt_trans hij hj
      rw [List.getElem?_append, if_pos hi] at hx
      rw [List.getElem?_append, if_pos hj] at hy
      exact hinv b (List.getElem?_mem hb) i j x y hij hx hy e' he' hid
    · have hlt : j < b.length + 1 := by
        have h1 := (List.getElem?_eq_some.mp hy).1
        simpa using h1
      have hjlen : j = b.length := by omega
      subst hjlen
      rw [List.getElem?_concat_length, Option.some.injEq] at hy
      have hee : e' = e := List.inj_on_of_nodup_map hnd he' he (by rw [hid, ← hy])
      subst hee
      have hi : i < b.length := by omega
      rw [List.getElem?_append, if_pos hi] at hx
      have hxb : x ∈ b := List.getElem?_mem hx
      intro hxc
      have hnone := List.any_eq_false.mp helig x hxc
      exact hnone (by simpa [List.contains, List.elem_iff] using hxb)

theorem foldStates_noLateConflicts {es : List Experiment}
    (hnd : (es.map Experiment.id_exp).Nodup) :
    ∀ (rest : List Experiment) (s : SplittingService), (∀ e ∈ rest, e ∈ es) →
      NoLateConflicts es s.buckets → NoLateConflicts es (foldStates s rest).buckets := by
  intro rest
  induction rest with
  | nil => intro s _ h; exact h
  | cons e tl ih =>
      intro s hsub hinv
      exact ih _ (fun e' h' => hsub e' (List.mem_cons_of_mem _ h'))
        (addExperiment_preserves_noLateConflicts hnd (hsub e (List.mem_cons_self _ _)) hinv)

theorem processStep_frozen (m : List (ℤ × Experiment)) (u : String) (er : PyErr) :
    ∀ l : List ℤ, l.foldl (processStep m u) (Except.error er) = Except.error er := by
  intro l
  induction l with
  | nil => rfl
  | cons y ys ih => exact ih

theorem processStep_keyError (m : List (ℤ × Experiment)) (u : String)
    {bucket : List ℤ} {x : ℤ} (hx : x ∈ bucket) (hlx : m.lookup x = none) :
    ∀ groups : List (ℤ × String),
      bucket.foldl (processStep m u) (Except.ok groups) = Except.error PyErr.keyError := by
  induction bucket with
  | nil => cases hx
  | cons y ys ih =>
      intro groups
      rcases List.mem_cons.mp hx with rfl | hx'
      · rw [List.foldl_cons,
          show processStep m u (Except.ok groups) x = Except.error PyErr.keyError by
            simp [processStep, hlx, Except.bind]]
        exact processStep_frozen m u _ ys
      · cases hly : m.lookup y with
        | none =>
            rw [List.foldl_cons,
              show processStep m u (Except.ok groups) y = Except.error PyErr.keyError by
                simp [processStep, hly, Except.bind]]
            exact processStep_frozen m u _ ys
        | some e =>
            rw [List.foldl_cons,
              show processStep m u (Except.ok groups) y =
                Except.ok (groups ++
                  [(y, if getHashId u e.salt 2 = 0 then "A" else "B")]) by
                simp [processStep, hly, Except.bind]]
            exact ih hx' _

/-! ### Claim theorems: the allocator -/

/-- C1, amended.  Starting from empty buckets, after any sequence of
`add_experiment` calls on experiments with pairwise-distinct ids, for
every bucket and every pair of experiments hosted in it, the id of the
earlier-added experiment does not appear in the conflicts set of the
later-added experiment (bucket entries are appended in addition
order).  The symmetric direction of the original claim fails:
`claim1_counterexample`. -/
theorem claim1_no_late_conflicts (n : ℕ) (salt : String) (es : List Experiment)
    (hnd : (es.map Experiment.id_exp).Nodup) :
    ∀ b ∈ ((runAdds (SplittingService.create n salt [] []) es).2).buckets,
      ∀ (i j : ℕ) (x y : ℤ), i < j → b[i]? = some x → b[j]? = some y →
        ∀ e ∈ es, e.id_exp = y → x ∉ e.conflicts := by
  rw [runAdds_snd]
  have base : NoLateConflicts es (SplittingService.create n salt [] []).buckets := by
    intro b hb
    have hb' : b = [] :=
      List.eq_of_mem_replicate (by simpa [SplittingService.create] using hb)
    subst hb'
    intro i j x y _ hx
    simp at hx
  exact foldStates_noLateConflicts hnd es _ (fun _ h => h) base

/-- C1 witness: in the two-experiment run below, experiment 1 (added
first) is not listed in the conflicts of experiment 2 (added later to
the same bucket). -/
theorem claim1_witness : (1 : ℤ) ∉ expAsym2.conflicts :=
  claim1_no_late_conflicts 1 "" [expAsym1, expAsym2] (by decide) [1, 2] (by decide)
    0 1 1 2 (by decide) (by decide) (by decide) expAsym2 (by decide) (by decide)

/-- C1 counterexample.  `expAsym1` (conflicts = [2]) and `expAsym2`
(conflicts = []) are both accepted into the single bucket, which then
hosts experiments 1 and 2 even though id 2 is in experiment 1's
conflicts set: the eligibility check only tests the incoming
experiment's conflicts against current occupants, so the symmetric
invariant stated by the claim is violated. -/
theorem claim1_counterexample :
    ((runAdds (SplittingService.create 1 "" [] []) [expAsym1, expAsym2]).2).buckets =
      [[expAsym1.id_exp, expAsym2.id_exp]] ∧
    expAsym2.id_exp ∈ expAsym1.conflicts := by decide

/-- C2.  Whenever fewer eligible buckets exist than
`experiment.buckets_count`, `add_experiment` returns `accepted = false`
with the state object unchanged (same bucket table, same
`id2experiment` map), and no exception path exists in the embedding. -/
theorem claim2_insufficient_capacity (s : SplittingService) (e : Experiment)
    (h : ((correctBuckets s.buckets e.conflicts).length : ℤ) < e.buckets_count) :
    addExperiment s e = (false, s) := by
  unfold addExperiment
  rw [if_pos h]

/-- C2 witness: a concrete rejection, with the returned state literally
equal to the input state. -/
theorem claim2_witness :
    addExperiment (SplittingService.create 2 "" [] []) { id_exp := 5, buckets_count := 3 } =
      (false, SplittingService.create 2 "" [] []) :=
  claim2_insufficient_capacity _ _ (by decide)

set_option maxRecDepth 10000 in
/-- C9.  The allocator scenario of the source's own test: with 4 buckets
and experiments `(4,[4]), (2,[3]), (2,[2]), (1,[1])` added as ids
1,2,3,4, the acceptance sequence is `[true, true, true, false]`, and the
final bucket table `[[1,2],[1,2],[1,3],[1,3]]` shows each accepted
experiment occupying exactly its `buckets_count` eligible buckets, most
heavily loaded eligible buckets first (ties by bucket index, matching
the stable descending sort). -/
theorem claim9_scenario :
    runAdds (SplittingService.create 4 "" [] []) scenarioExperiments =
      ([true, true, true, false],
        { buckets_count := 4, bucket_salt := "",
          buckets := [[1, 2], [1, 2], [1, 3], [1, 3]], id2experiment := [] }) := by
  decide

/-- C10.  `add_experiment` never modifies the `id2experiment` map,
whether it accepts or rejects; consequently, after a successful
`add_experiment` for an id absent from the map, `process_user` raises
`KeyError` for every user whose hash lands in a bucket hosting that
id. -/
theorem claim10_frame_and_keyError :
    (∀ (s : SplittingService) (e : Experiment),
      ((addExperiment s e).2).id2experiment = s.id2experiment) ∧
    (∀ (s : SplittingService) (e : Experiment) (s' : SplittingService) (u : String),
      addExperiment s e = (true, s') →
      s.id2experiment.lookup e.id_exp = none →
      ∀ bucket, s'.buckets.get? (getHashId u s'.bucket_salt s'.buckets_count) =
          some bucket →
        e.id_exp ∈ bucket →
        processUser s' u = Except.error PyErr.keyError) := by
  refine ⟨addExperiment_id2experiment, ?_⟩
  intro s e s' u hadd hlookup bucket hbucket hmem
  have hframe : s'.id2experiment = s.id2experiment := by
    have h := addExperiment_id2experiment s e
    rw [hadd] at h
    exact h
  have hl : s'.id2experiment.lookup e.id_exp = none := by rw [hframe, hlookup]
  unfold processUser
  simp only [hbucket]
  rw [processStep_keyError s'.id2experiment u hmem hl []]
  rfl

set_option maxRecDepth 40000 in
/-- C10 witness: one bucket (every user hashes to it, since any hash
mod 1 is 0), an experiment with fresh id 7 added successfully, empty
id map: `process_user` raises `KeyError`. -/
theorem claim10_witness :
    processUser ((addExperiment (SplittingService.create 1 "" [] []) expFresh).2) "u" =
      Except.error PyErr.keyError :=
  claim10_frame_and_keyError.2 (SplittingService.create 1 "" [] []) expFresh
    ((addExperiment (SplittingService.create 1 "" [] []) expFresh).2) "u"
    (by decide) (by decide) [7] (by decide) (by decide)

/-! ### Claim theorems: the hash -/

/-- C3, amended.  The hash used for bucket and group assignment is the
128-bit MD5 digest of the concatenation of the **id string followed by
the salt** (not salt-first as claimed), interpreted as an unsigned
integer via `int(hexdigest, 16)` and reduced modulo `modulo`; the
result is a residue below the modulus. -/
theorem claim3_digest_id_then_salt (id_string salt : String) (modulo : ℕ)
    (h : 0 < modulo) :
    getHashId id_string salt modulo =
      md5Nat (utf8Bytes (id_string ++ salt)) % modulo ∧
    getHashId id_string salt modulo < modulo :=
  ⟨rfl, Nat.mod_lt _ h⟩

/-- C3 witness: the amended statement at id `"1"`, salt `"0"`,
modulo 1000. -/
theorem claim3_witness :
    getHashId "1" "0" 1000 = md5Nat (utf8Bytes ("1" ++ "0")) % 1000 ∧
    getHashId "1" "0" 1000 < 1000 :=
  claim3_digest_id_then_salt "1" "0" 1000 (by decide)

set_option maxRecDepth 40000 in
/-- C3 counterexample: at id `"1"`, salt `"0"`, modulo 1000, the code
hashes `"10"` (id + salt, residue 824) while the spec's salt-first
order hashes `"01"` (residue 99). -/
theorem claim3_counterexample :
    getHashId "1" "0" 1000 ≠ specHashBucketSaltFirst "1" "0" 1000 := by decide

/-! ### Claim theorems: the statistics engine -/

/-- C4, amended.  With `statistical_test = "ttest"` and
`stratification = "on"`, `get_pvalue` always returns the stratified
statistic — it has no failure path — and on the concrete groups
`stratA`/`stratB`, where stratum 0 occurs only in group A, it returns
the value obtained by silently dropping the missing stratum: group B's
stratified mean is `33/16 = (11/4)·(3/4)` (only stratum 1 contributes;
pandas' `.sum()` skips the `NaN` produced by index alignment) instead
of failing, and its stratified variance term `35/16` likewise uses
stratum 1 alone. -/
theorem claim4_missing_stratum_dropped :
    (∀ (tInd uTest : List (ℚ × ℚ) → List (ℚ × ℚ) → ℚ) (sqrtQ cdf ppf : ℚ → ℚ)
        (boot : List ℚ) (pe : ℚ) (a b : List (ℚ × ℚ)) (d : Design),
      d.statistical_test = "ttest" → d.stratification = "on" →
      getPvalue tInd uTest sqrtQ cdf ppf boot pe a b d =
        Except.ok (ttestStrat sqrtQ cdf a b)) ∧
    (∀ sqrtQ cdf : ℚ → ℚ,
      ttestStrat sqrtQ cdf stratA stratB =
        2 * (1 - cdf |(33 / 16 - 2) / sqrtQ (1 / 2 / 4 + 35 / 16 / 4)|)) := by
  constructor
  · intro tInd uTest sqrtQ cdf ppf boot pe a b d h1 h2
    unfold getPvalue
    rw [h1, h2]
    rw [if_pos rfl, if_neg (by decide : ¬("on" = "off")), if_pos rfl]
  · intro sqrtQ cdf
    have hd : calcStratMean stratB
          (valueCounts (stratA.map Prod.snd ++ stratB.map Prod.snd)) -
        calcStratMean stratA
          (valueCounts (stratA.map Prod.snd ++ stratB.map Prod.snd)) =
        33 / 16 - 2 := by with_unfolding_all decide
    have hv : calcStratVar stratA
          (valueCounts (stratA.map Prod.snd ++ stratB.map Prod.snd)) /
            (stratA.length : ℚ) +
        calcStratVar stratB
          (valueCounts (stratA.map Prod.snd ++ stratB.map Prod.snd)) /
            (stratB.length : ℚ) =
        1 / 2 / 4 + 35 / 16 / 4 := by with_unfolding_all decide
    simp only [ttestStrat]
    rw [hd, hv]

/-- C4 witness: the dispatch equation of the amended claim at the
concrete design and groups. -/
theorem claim4_witness :
    getPvalue (fun _ _ => 0) (fun _ _ => 0) id id id [] 0 stratA stratB designStratOn =
      Except.ok (ttestStrat id id stratA stratB) :=
  claim4_missing_stratum_dropped.1 _ _ id id id [] 0 stratA stratB designStratOn rfl rfl

/-- C4 counterexample: stratum 0 occurs in group A's strata column but
not in group B's, yet `get_pvalue` returns the number `78/43` (for the
identity instantiations of `norm.cdf` and `** 0.5`) instead of
failing. -/
theorem claim4_counterexample :
    (0 : ℚ) ∈ stratA.map Prod.snd ∧ (0 : ℚ) ∉ stratB.map Prod.snd ∧
    getPvalue (fun _ _ => 0) (fun _ _ => 0) id id id [] 0 stratA stratB designStratOn =
      Except.ok (78 / 43) := by with_unfolding_all decide

/-- C5, amended.  Neither function validates its inputs.
`estimate_sample_size` returns the numeric value 0 (no error) whenever
the metric variance is 0 but `mean · effect ≠ 0`; it fails only when
`mean · effect = 0`, and then with a float-conversion error at
`int(np.ceil(...))`, not an explicit degenerate-input check.
`get_mde` raises nothing for `sample_size ≤ 0`: it returns the
non-finite float `inf` for `sample_size = 0` and `nan` for a negative
`sample_size` (positive radicand numerator). -/
theorem claim5_no_degenerate_input_checks :
    (∀ (ppf : ℚ → ℚ) (metrics : List (String × ℚ)) (d : Design),
      metrics.length ≠ 0 →
      listVarP (metrics.map Prod.snd) = 0 →
      listMean (metrics.map Prod.snd) * (d.effect / 100) ≠ 0 →
      estimateSampleSize ppf metrics d = Except.ok 0) ∧
    (∀ (ppf : ℚ → ℚ) (metrics : List (String × ℚ)) (d : Design),
      metrics.length ≠ 0 →
      listMean (metrics.map Prod.snd) * (d.effect / 100) = 0 →
      estimateSampleSize ppf metrics d = Except.error PyErr.floatConversion) ∧
    (∀ (sqrtQ ppf : ℚ → ℚ) (sigma alp power : ℚ),
      0 < (ppf (1 - alp / 2) + ppf power) ^ 2 * (2 * sigma ^ 2) →
      getMde sqrtQ ppf sigma 0 alp power = PyFloat.inf) ∧
    (∀ (sqrtQ ppf : ℚ → ℚ) (sigma : ℚ) (n : ℤ) (alp power : ℚ),
      n < 0 →
      0 < (ppf (1 - alp / 2) + ppf power) ^ 2 * (2 * sigma ^ 2) →
      getMde sqrtQ ppf sigma n alp power = PyFloat.nan) := by
  refine ⟨?_, ?_, ?_, ?_⟩
  · intro ppf metrics d h0 hvar heps
    unfold estimateSampleSize
    rw [if_neg h0]
    simp only []
    rw [if_neg (pow_ne_zero 2 heps), hvar]
    norm_num
  · intro ppf metrics d h0 heps
    unfold estimateSampleSize
    rw [if_neg h0]
    simp only []
    rw [if_pos (by rw [heps]; norm_num)]
  · intro sqrtQ ppf sigma alp power hnum
    unfold getMde
    rw [if_pos rfl, if_neg hnum.ne']
  · intro sqrtQ ppf sigma n alp power hn hnum
    unfold getMde
    rw [if_neg (by omega : ¬(n = 0))]
    simp only []
    rw [if_pos]
    exact div_neg_of_pos_of_neg hnum (by exact_mod_cast hn)

/-- C5 witness: the four amended behaviours at concrete inputs. -/
theorem claim5_witness :
    estimateSampleSize (fun _ => 2) metricsConst {} = Except.ok 0 ∧
    estimateSampleSize (fun _ => 2) [("a", 0)] {} = Except.error PyErr.floatConversion ∧
    getMde id (fun _ => 2) 1 0 (1 / 20) (9 / 10) = PyFloat.inf ∧
    getMde id (fun _ => 2) 1 (-5) (1 / 20) (9 / 10) = PyFloat.nan :=
  ⟨claim5_no_degenerate_input_checks.1 _ metricsConst {} (by decide)
      (by with_unfolding_all decide) (by with_unfolding_all decide),
   claim5_no_degenerate_input_checks.2.1 _ _ {} (by decide)
      (by with_unfolding_all decide),
   claim5_no_degenerate_input_checks.2.2.1 id _ 1 _ _ (by with_unfolding_all decide),
   claim5_no_degenerate_input_checks.2.2.2 id _ 1 (-5) _ _ (by decide)
      (by with_unfolding_all decide)⟩

/-- C5 counterexample: a constant metric column has variance 0 (≤ 0),
yet `estimate_sample_size` returns the number 0 instead of failing,
and `get_mde` with `sample_size = 0` returns `inf` instead of
failing. -/
theorem claim5_counterexample :
    listVarP (metricsConst.map Prod.snd) = 0 ∧
    estimateSampleSize (fun _ => 2) metricsConst {} = Except.ok 0 ∧
    getMde id (fun _ => 2) 1 0 (1 / 20) (9 / 10) = PyFloat.inf := by
  with_unfolding_all decide

/-- C6, amended.  For every stat vector, point estimate, alpha and
valid `ci_type`, the bootstrap decision returns
`pseudo_pvalue = 1.0` exactly when the confidence interval contains 0
**strictly** (`left < 0 < right`, the open interval), and `0.0`
otherwise — an interval endpoint equal to 0 yields `0.0`, not `1.0`
as claimed. -/
theorem claim6_pseudo_pvalue_open_interval :
    ∀ (ppf sqrtQ : ℚ → ℚ) (boot : List ℚ) (pe : ℚ) (d : Design),
      d.bootstrap_ci_type = "normal" ∨ d.bootstrap_ci_type = "percentile" ∨
        d.bootstrap_ci_type = "pivotal" →
      ∃ l r p, runBootstrap ppf sqrtQ boot pe d = Except.ok ((l, r), p) ∧
        (p = 1 ↔ 0 ∈ Set.Ioo l r) ∧ (p = 0 ↔ 0 ∉ Set.Ioo l r) := by
  intro ppf sqrtQ boot pe d hd
  have key : ∀ ci : ℚ × ℚ,
      ((if ci.1 < 0 ∧ 0 < ci.2 then (1 : ℚ) else 0) = 1 ↔ 0 ∈ Set.Ioo ci.1 ci.2) ∧
      ((if ci.1 < 0 ∧ 0 < ci.2 then (1 : ℚ) else 0) = 0 ↔ 0 ∉ Set.Ioo ci.1 ci.2) := by
    intro ci
    by_cases hc : ci.1 < 0 ∧ 0 < ci.2
    · simp [hc, Set.mem_Ioo]
    · simp [hc, Set.mem_Ioo]
  rcases hd with hd | hd | hd
  · unfold runBootstrap
    rw [hd, if_pos rfl]
    exact ⟨_, _, _, rfl, (key _).1, (key _).2⟩
  · unfold runBootstrap
    rw [hd, if_neg (by decide : ¬("percentile" = "normal")), if_pos rfl]
    exact ⟨_, _, _, rfl, (key _).1, (key _).2⟩
  · unfold runBootstrap
    rw [hd, if_neg (by decide : ¬("pivotal" = "normal")),
      if_neg (by decide : ¬("pivotal" = "percentile")), if_pos rfl]
    exact ⟨_, _, _, rfl, (key _).1, (key _).2⟩

/-- C6 witness: the amended statement at a concrete percentile
bootstrap call. -/
theorem claim6_witness :
    ∃ l r p, runBootstrap (fun _ => 0) (fun _ => 0) [1, 3] 2 designPercentile =
      Except.ok ((l, r), p) ∧ (p = 1 ↔ 0 ∈ Set.Ioo l r) ∧ (p = 0 ↔ 0 ∉ Set.Ioo l r) :=
  claim6_pseudo_pvalue_open_interval _ _ _ _ _ (Or.inr (Or.inl rfl))

/-- C6 counterexample: with all bootstrap statistics equal to 0 the
percentile interval is `[0, 0]`, which contains 0 (both endpoints
equal 0), yet the pseudo p-value is `0.0`, not `1.0`. -/
theorem claim6_counterexample :
    runBootstrap (fun _ => 0) (fun _ => 0) [0, 0] 5 designPercentile =
      Except.ok ((0, 0), 0) ∧ (0 : ℚ) ∈ Set.Icc (0 : ℚ) 0 := by
  constructor
  · with_unfolding_all decide
  · simp

/-- C7.  Dispatch on configuration strings never defaults: an unknown
`statistical_test`, an unknown `stratification` under `ttest`, and an
unknown `bootstrap_ci_type` in the bootstrap interval construction all
fail synchronously with the configuration error. -/
theorem claim7_invalid_configuration :
    (∀ (tInd uTest : List (ℚ × ℚ) → List (ℚ × ℚ) → ℚ) (sqrtQ cdf ppf : ℚ → ℚ)
        (boot : List ℚ) (pe : ℚ) (a b : List (ℚ × ℚ)) (d : Design),
      d.statistical_test ≠ "ttest" → d.statistical_test ≠ "utest" →
      d.statistical_test ≠ "bootstrap" →
      getPvalue tInd uTest sqrtQ cdf ppf boot pe a b d =
        Except.error PyErr.invalidConfiguration) ∧
    (∀ (tInd uTest : List (ℚ × ℚ) → List (ℚ × ℚ) → ℚ) (sqrtQ cdf ppf : ℚ → ℚ)
        (boot : List ℚ) (pe : ℚ) (a b : List (ℚ × ℚ)) (d : Design),
      d.statistical_test = "ttest" → d.stratification ≠ "off" →
      d.stratification ≠ "on" →
      getPvalue tInd uTest sqrtQ cdf ppf boot pe a b d =
        Except.error PyErr.invalidConfiguration) ∧
    (∀ (ppf sqrtQ : ℚ → ℚ) (boot : List ℚ) (pe : ℚ) (d : Design),
      d.bootstrap_ci_type ≠ "normal" → d.bootstrap_ci_type ≠ "percentile" →
      d.bootstrap_ci_type ≠ "pivotal" →
      runBootstrap ppf sqrtQ boot pe d = Except.error PyErr.invalidConfiguration) := by
  refine ⟨?_, ?_, ?_⟩
  · intro tInd uTest sqrtQ cdf ppf boot pe a b d h1 h2 h3
    unfold getPvalue
    rw [if_neg h1, if_neg h2, if_neg h3]
  · intro tInd uTest sqrtQ cdf ppf boot pe a b d h1 h2 h3
    unfold getPvalue
    rw [if_pos h1, if_neg h2, if_neg h3]
  · intro ppf sqrtQ boot pe d h1 h2 h3
    unfold runBootstrap
    rw [if_neg h1, if_neg h2, if_neg h3]

/-- C7 witness: the three rejection branches at unknown configuration
values `"anova"`, `"half"`, `"basic"`. -/
theorem claim7_witness :
    getPvalue (fun _ _ => 0) (fun _ _ => 0) id id id [] 0 [] [] designBadTest =
      Except.error PyErr.invalidConfiguration ∧
    getPvalue (fun _ _ => 0) (fun _ _ => 0) id id id [] 0 [] [] designBadStrat =
      Except.error PyErr.invalidConfiguration ∧
    runBootstrap id id [] 0 designBadCi = Except.error PyErr.invalidConfiguration :=
  ⟨claim7_invalid_configuration.1 _ _ id id id [] 0 [] [] designBadTest
      (by decide) (by decide) (by decide),
   claim7_invalid_configuration.2.1 _ _ id id id [] 0 [] [] designBadStrat
      rfl (by decide) (by decide),
   claim7_invalid_configuration.2.2 id id [] 0 designBadCi
      (by decide) (by decide) (by decide)⟩

/-- C8.  `estimate_sample_size` computes exactly the spec's formula
`ceil(r * (z_{1-alpha/2} + z_{1-beta})^2 * 2 * variance / (mean * effect/100)^2)`
(whenever the denominator is nonzero), and on the 10-user dataset with
metric values 0..9, alpha = 0.05, beta = 0.1, effect = 3 %, it returns
exactly 9513 for any `ppf` whose quantile sum
`z_0.975 + z_0.9` lies in the (true) window
`[3.24145, 3.24153]`. -/
theorem claim8_sample_size_formula :
    (∀ (ppf : ℚ → ℚ) (metrics : List (String × ℚ)) (d : Design),
      metrics.length ≠ 0 →
      listMean (metrics.map Prod.snd) * (d.effect / 100) ≠ 0 →
      estimateSampleSize ppf metrics d = Except.ok (specSampleSize ppf metrics d)) ∧
    (∀ ppf : ℚ → ℚ,
      324145 / 100000 ≤ ppf (39 / 40) + ppf (9 / 10) →
      ppf (39 / 40) + ppf (9 / 10) ≤ 324153 / 100000 →
      estimateSampleSize ppf metrics10 designC8 = Except.ok 9513) := by
  constructor
  · intro ppf metrics d h0 heps
    unfold estimateSampleSize specSampleSize
    rw [if_neg h0]
    simp only []
    rw [if_neg (pow_ne_zero 2 heps)]
    congr 1
    congr 1
    ring
  · intro ppf h1 h2
    have h0 : metrics10.length ≠ 0 := by decide
    have heps : listMean (metrics10.map Prod.snd) * (designC8.effect / 100) ≠ 0 := by
      with_unfolding_all decide
    unfold estimateSampleSize
    rw [if_neg h0]
    simp only []
    rw [if_neg (pow_ne_zero 2 heps)]
    have hr : ((metrics10.map Prod.fst).dedup.length : ℚ) / (metrics10.length : ℚ) = 1 := by
      with_unfolding_all decide
    have hvar : listVarP (metrics10.map Prod.snd) = 33 / 4 := by
      with_unfolding_all decide
    have hmean : listMean (metrics10.map Prod.snd) = 9 / 2 := by
      with_unfolding_all decide
    have ha : (1 : ℚ) - designC8.alpha / 2 = 39 / 40 := by with_unfolding_all decide
    have hb : (1 : ℚ) - designC8.beta = 9 / 10 := by with_unfolding_all decide
    have heff : designC8.effect = 3 := rfl
    rw [hr, hvar, hmean, ha, hb, heff]
    set s := ppf (39 / 40) + ppf (9 / 10) with hs
    have hX : 1 * s ^ 2 * 2 * (33 / 4) / (9 / 2 * ((3 : ℚ) / 100)) ^ 2 =
        s ^ 2 * (220000 / 243) := by ring
    rw [hX]
    congr 1
    rw [Int.ceil_eq_iff]
    have hL : (324145 / 100000 : ℚ) ^ 2 ≤ s ^ 2 := by nlinarith [h1, h2]
    have hU : s ^ 2 ≤ (324153 / 100000 : ℚ) ^ 2 := by nlinarith [h1, h2]
    push_cast
    constructor
    · nlinarith [hL]
    · nlinarith [hU]

/-- C8 witness: both parts at concrete inputs — the formula agreement
on the constant table, and the value 9513 with the rational quantile
stand-in `ppfC8` (sum 3.24151). -/
theorem claim8_witness :
    estimateSampleSize ppfC8 metricsConst {} =
      Except.ok (specSampleSize ppfC8 metricsConst {}) ∧
    estimateSampleSize ppfC8 metrics10 designC8 = Except.ok 9513 :=
  ⟨claim8_sample_size_formula.1 ppfC8 metricsConst {} (by decide)
      (by with_unfolding_all decide),
   claim8_sample_size_formula.2 ppfC8 (by with_unfolding_all decide)
      (by with_unfolding_all decide)⟩
